import Mathlib

/-!
Verification development for `src/max17205.py`: a MAX17205 fuel-gauge
test tool that polls registers over SSH, stores the decoded values in a
dict-of-lists time-series database, persists it as JSON, and plots it.

Every definition here is a shallow embedding of a function of the source
file (the source line numbers are given in the doc comments). Python
integers are `Int`/`Nat`; Python floats that only ever hold exactly
representable values are `ℚ`; fallible Python code returns
`Except`/`Option`.
-/

/-- ASCII whitespace recognised by Python's `str.strip()`
(space, tab, newline, carriage return, vertical tab, form feed). -/
def isPyWs (c : Char) : Bool :=
  c = ' ' || c = '\t' || c = '\n' || c = '\r' || c = '\x0b' || c = '\x0c'

/-- Python `str.strip()` on the character list: drop whitespace from both ends.
Models `completed_process.stdout.strip()` at src/max17205.py:161
(restricted to ASCII whitespace; the i2cget output is ASCII). -/
def pyStrip (s : List Char) : List Char :=
  ((s.dropWhile isPyWs).reverse.dropWhile isPyWs).reverse

/-- Hexadecimal digit test, as accepted by Python `int(s, 16)`. -/
def isHexDig (c : Char) : Bool :=
  ('0' ≤ c && c ≤ '9') || ('a' ≤ c && c ≤ 'f') || ('A' ≤ c && c ≤ 'F')

/-- Value of a hexadecimal digit. -/
def hexDigVal (c : Char) : Nat :=
  if '0' ≤ c && c ≤ '9' then c.toNat - 48
  else if 'a' ≤ c && c ≤ 'f' then c.toNat - 87
  else c.toNat - 55

/-- A run of hex digits with single underscores allowed between digits,
as Python `int(s, 16)` accepts after the optional prefix: after the
accumulated value `acc`, consume the rest of the run. -/
def hexRunRest (acc : Nat) : List Char → Option Nat
  | [] => some acc
  | '_' :: c :: cs =>
      if isHexDig c then hexRunRest (acc * 16 + hexDigVal c) cs else none
  | ['_'] => none
  | c :: cs =>
      if isHexDig c then hexRunRest (acc * 16 + hexDigVal c) cs else none

/-- A nonempty digit run: the first character must be a hex digit
(no leading underscore). -/
def hexRun : List Char → Option Nat
  | [] => none
  | c :: cs => if isHexDig c then hexRunRest (hexDigVal c) cs else none

/-- After a `0x`/`0X` prefix Python additionally allows one underscore
directly after the prefix (`int("0x_ff", 16)` is valid). -/
def hexAfterPrefix : List Char → Option Nat
  | '_' :: cs => hexRun cs
  | cs => hexRun cs

/-- The digit part of `int(s, 16)`: optional `0x`/`0X` prefix, then a
digit run. -/
def hexBody : List Char → Option Nat
  | '0' :: 'x' :: cs => hexAfterPrefix cs
  | '0' :: 'X' :: cs => hexAfterPrefix cs
  | cs => hexRun cs

/-- Python `int(s, 16)`: optional surrounding whitespace, optional sign,
optional `0x` prefix, nonempty underscore-separated hex digit run.
`none` models the `ValueError` Python raises on any other input.
Models `int(hex_string, 16)` at src/max17205.py:162 (ASCII inputs; the
caller has already stripped the string, so `int`'s own whitespace
stripping is repeated here harmlessly). -/
def pyIntHex (s : List Char) : Option Int :=
  match pyStrip s with
  | '+' :: cs => (hexBody cs).map (fun n => (n : Int))
  | '-' :: cs => (hexBody cs).map (fun n => -(n : Int))
  | cs => (hexBody cs).map (fun n => (n : Int))

/-- Python `ctypes.c_int16(x).value`: truncate to the low 16 bits and
reinterpret as a two's-complement signed 16-bit integer.
Models src/max17205.py:164. -/
def c_int16 (v : Int) : Int :=
  let m := v % 65536
  if m ≥ 32768 then m - 65536 else m

/-- Error taxonomy of the spec (§7) for the read/decode pipeline:
`commandError` is asyncssh's `ProcessError` from `check=True` on a
non-zero exit; `parseError` is the `ValueError` from `int(s, 16)`. -/
inductive Err where
  | commandError
  | parseError
  deriving DecidableEq, Repr

/-- The decode tail of `_get_reg` (src/max17205.py:161-165): strip the
output text, parse it as hexadecimal, and if `signed` reinterpret the
result as a two's-complement 16-bit integer. -/
def decode (h : String) (signed : Bool) : Except Err Int :=
  match pyIntHex (pyStrip h.data) with
  | none => .error .parseError
  | some v => .ok (if signed then c_int16 v else v)

/-- Result of running a remote command over SSH:
`conn.run(cmd)` yields an exit status and stdout text. -/
structure CmdResult where
  exitStatus : Nat
  stdout : String

/-- The remote SSH connection, modelled as the response it gives to each
command string. -/
def Conn := String → CmdResult

/-- Python `hex(n)` for `n ≥ 0`: `0x` followed by lowercase hex digits.
Models `hex(reg_address)` at src/max17205.py:159. -/
def pyHex (n : Nat) : String :=
  "0x" ++ ⟨Nat.toDigits 16 n⟩

/-- The i2cget command line built by `_get_reg` (src/max17205.py:159). -/
def mkCmd (reg_address : Nat) : String :=
  "i2cget -f -y 0 0x36 " ++ pyHex reg_address ++ " w"

/-- Model of `conn.run(cmd, check=True)` (src/max17205.py:160): a non-zero exit
status raises asyncssh's `ProcessError`, the spec's `CommandError`. -/
def runCheck (res : CmdResult) : Except Err CmdResult :=
  if res.exitStatus = 0 then .ok res else .error .commandError

/-- Model of `_get_reg` (src/max17205.py:158-165): build the i2cget command for
the register address, run it with `check=True`, then strip and decode
its stdout. -/
def _get_reg (conn : Conn) (reg_address : Nat) (signed : Bool := false) :
    Except Err Int :=
  match runCheck (conn (mkCmd reg_address)) with
  | .error e => .error e
  | .ok res => decode res.stdout signed

/-- The in-memory contents of `TimeSeriesDatabase._data` in its intended
schema: the dict of 8 parallel lists built at src/max17205.py:57-66 and
grown by `append`. Numeric values are rationals (exact model of the
Python floats/ints stored). -/
structure DbData where
  t : List String
  VFSOC : List ℚ
  FullSOCThr : List ℚ
  AvgCurrent : List ℚ
  IChgTerm : List ℚ
  AvgCell1 : List ℚ
  AvgCell2 : List ℚ
  RepSOC : List ℚ
  deriving DecidableEq, Repr

/-- The empty store: all 8 sequences empty (src/max17205.py:57-66). -/
def emptyDb : DbData := ⟨[], [], [], [], [], [], [], []⟩

/-- Model of `TimeSeriesDatabase.append` (src/max17205.py:41-50): push the
timestamp and one value onto each of the 8 sequences.
`datetime.now().isoformat()` (line 43) is modelled by the `now`
parameter. -/
def DbData.append (db : DbData) (now : String)
    (VFSOC FullSOCThr AvgCurrent IChgTerm AvgCell1 AvgCell2 RepSOC : ℚ) :
    DbData where
  t := db.t ++ [now]
  VFSOC := db.VFSOC ++ [VFSOC]
  FullSOCThr := db.FullSOCThr ++ [FullSOCThr]
  AvgCurrent := db.AvgCurrent ++ [AvgCurrent]
  IChgTerm := db.IChgTerm ++ [IChgTerm]
  AvgCell1 := db.AvgCell1 ++ [AvgCell1]
  AvgCell2 := db.AvgCell2 ++ [AvgCell2]
  RepSOC := db.RepSOC ++ [RepSOC]

/-- One polling cycle's assembled result (spec §3 `Sample`): a timestamp
plus the 7 decoded register values. -/
structure Sample where
  t : String
  VFSOC : ℚ
  FullSOCThr : ℚ
  AvgCurrent : ℚ
  IChgTerm : ℚ
  AvgCell1 : ℚ
  AvgCell2 : ℚ
  RepSOC : ℚ

/-- Append one `Sample`'s fields via `TimeSeriesDatabase.append`. -/
def appendSample (db : DbData) (s : Sample) : DbData :=
  db.append s.t s.VFSOC s.FullSOCThr s.AvgCurrent s.IChgTerm
    s.AvgCell1 s.AvgCell2 s.RepSOC

/-- A sequence of N successful appends, oldest first. -/
def appendAll (db : DbData) (samples : List Sample) : DbData :=
  samples.foldl appendSample db

/-- All 8 sequences of the store have length `n`. -/
def eqLen (db : DbData) (n : Nat) : Prop :=
  db.t.length = n ∧ db.VFSOC.length = n ∧ db.FullSOCThr.length = n ∧
  db.AvgCurrent.length = n ∧ db.IChgTerm.length = n ∧
  db.AvgCell1.length = n ∧ db.AvgCell2.length = n ∧ db.RepSOC.length = n

instance (db : DbData) (n : Nat) : Decidable (eqLen db n) := by
  unfold eqLen; infer_instance

/-- One register read request: address and signedness. -/
structure RegRead where
  address : Nat
  signed : Bool
  deriving DecidableEq, Repr

/-- One `await _get_reg(...)` argument of the `db.append(...)` call in
`_append_vals`: on success the decoded value is returned and the read is
recorded in the issued-read log, on failure the exception propagates. -/
def readStep (conn : Conn) (reg_address : Nat) (signed : Bool)
    (log : List RegRead) : Except Err (Int × List RegRead) :=
  match _get_reg conn reg_address signed with
  | .error e => .error e
  | .ok v => .ok (v, log ++ [⟨reg_address, signed⟩])

/-- Model of `_append_vals` (src/max17205.py:146-155): evaluate the seven
`await _get_reg(...)` arguments in order (Python evaluates call
arguments left to right, and each `await` completes before the next
starts), then call `db.append` with the results. Any read failure
propagates before `db.append` runs. Returns the new store together with
the log of issued reads. -/
def _append_vals (conn : Conn) (now : String) (db : DbData) :
    Except Err (DbData × List RegRead) :=
  match readStep conn 0xFF false [] with
  | .error e => .error e
  | .ok (VFSOC, log) =>
  match readStep conn 0x13 false log with
  | .error e => .error e
  | .ok (FullSOCThr, log) =>
  match readStep conn 0x0B true log with
  | .error e => .error e
  | .ok (AvgCurrent, log) =>
  match readStep conn 0x1E true log with
  | .error e => .error e
  | .ok (IChgTerm, log) =>
  match readStep conn 0xD4 false log with
  | .error e => .error e
  | .ok (AvgCell1, log) =>
  match readStep conn 0xD3 false log with
  | .error e => .error e
  | .ok (AvgCell2, log) =>
  match readStep conn 0x06 false log with
  | .error e => .error e
  | .ok (RepSOC, log) =>
    .ok (db.append now (VFSOC : ℚ) (FullSOCThr : ℚ) (AvgCurrent : ℚ)
      (IChgTerm : ℚ) (AvgCell1 : ℚ) (AvgCell2 : ℚ) (RepSOC : ℚ), log)

/-- Model of `_stream_vals` (src/max17205.py:140-143): repeat `_append_vals`
forever, sleeping between cycles. Modelled over a finite schedule of
cycle timestamps (any finite prefix of the infinite loop); the loop
stops at the first failing cycle, leaving the store as it was before
that cycle and surfacing the error. -/
def _stream_vals (conn : Conn) (times : List String) (db : DbData) :
    DbData × Option Err :=
  match times with
  | [] => (db, none)
  | now :: rest =>
    match _append_vals conn now db with
    | .error e => (db, some e)
    | .ok (db2, _) => _stream_vals conn rest db2

/-- A JSON value, as produced by Python's `json.load` and consumed by
`json.dump`. The stdlib codec is an external collaborator (spec §1);
text-level serialisation is faithful for this value type, so save
followed by load is modelled as the identity on `Json` values. -/
inductive Json where
  | null
  | bool (b : Bool)
  | num (q : ℚ)
  | str (s : String)
  | arr (xs : List Json)
  | obj (fields : List (String × Json))

/-- Python `x is None` test on a loaded JSON value. -/
def Json.isNull : Json → Bool
  | .null => true
  | _ => false

/-- Python dict lookup `d[key]` on an object's field list
(first binding wins; `json.load` keeps the last duplicate key, but the
objects this program writes have distinct keys). -/
def jLookupList : List (String × Json) → String → Option Json
  | [], _ => none
  | (k, v) :: rest, key => if k = key then some v else jLookupList rest key

/-- Lookup `d[key]` on a JSON value: only objects have keys. -/
def jLookup (j : Json) (key : String) : Option Json :=
  match j with
  | .obj fields => jLookupList fields key
  | _ => none

/-- The JSON object `json.dump(self._data, io)` writes for a store in
the intended schema (src/max17205.py:69-71): keys in the dict's
insertion order (src/max17205.py:57-66), timestamps as strings, values
as numbers. -/
def dbToJson (db : DbData) : Json :=
  .obj [("t", .arr (db.t.map .str)),
        ("VFSOC", .arr (db.VFSOC.map .num)),
        ("FullSOCThr", .arr (db.FullSOCThr.map .num)),
        ("AvgCurrent", .arr (db.AvgCurrent.map .num)),
        ("IChgTerm", .arr (db.IChgTerm.map .num)),
        ("AvgCell1", .arr (db.AvgCell1.map .num)),
        ("AvgCell2", .arr (db.AvgCell2.map .num)),
        ("RepSOC", .arr (db.RepSOC.map .num))]

/-- Read back a list of JSON strings (the `t` column as the program uses
it at src/max17205.py:93). -/
def jsonStrs : List Json → Option (List String)
  | [] => some []
  | .str s :: rest => (jsonStrs rest).map (fun l => s :: l)
  | _ => none

/-- Read back a list of JSON numbers (the numeric columns as the program
uses them at src/max17205.py:96-112). -/
def jsonNums : List Json → Option (List ℚ)
  | [] => some []
  | .num q :: rest => (jsonNums rest).map (fun l => q :: l)
  | _ => none

/-- The underlying list of a JSON array. -/
def jArr : Json → Option (List Json)
  | .arr xs => some xs
  | _ => none

/-- Extract the string sequence stored under `key`. -/
def getStrSeq (j : Json) (key : String) : Option (List String) :=
  (jLookup j key).bind fun v => (jArr v).bind jsonStrs

/-- Extract the numeric sequence stored under `key`. -/
def getNumSeq (j : Json) (key : String) : Option (List ℚ) :=
  (jLookup j key).bind fun v => (jArr v).bind jsonNums

/-- Observe a loaded JSON value as store contents, reading the 8 keys
exactly as the program does (`db.data["t"]`, `db.data["VFSOC"]`, ...). -/
def jsonToDb (j : Json) : Option DbData := do
  let t ← getStrSeq j "t"
  let VFSOC ← getNumSeq j "VFSOC"
  let FullSOCThr ← getNumSeq j "FullSOCThr"
  let AvgCurrent ← getNumSeq j "AvgCurrent"
  let IChgTerm ← getNumSeq j "IChgTerm"
  let AvgCell1 ← getNumSeq j "AvgCell1"
  let AvgCell2 ← getNumSeq j "AvgCell2"
  let RepSOC ← getNumSeq j "RepSOC"
  pure ⟨t, VFSOC, FullSOCThr, AvgCurrent, IChgTerm, AvgCell1, AvgCell2, RepSOC⟩

/-- The fresh dict built in the `except` branch of `__enter__`
(src/max17205.py:57-66): all 8 keys present, all sequences empty. -/
def emptyDbJson : Json :=
  .obj [("t", .arr []),
        ("VFSOC", .arr []),
        ("FullSOCThr", .arr []),
        ("AvgCurrent", .arr []),
        ("IChgTerm", .arr []),
        ("AvgCell1", .arr []),
        ("AvgCell2", .arr []),
        ("RepSOC", .arr [])]

/-- Exactly the two exception classes the `except` clause of
`__enter__` catches (src/max17205.py:56): `OSError` (file
missing/unreadable) and `json.JSONDecodeError` (decoded text unparsable
as JSON). This is NOT the whole failure space of the `try` body — see
`LoadOutcome`/`dbEnterFull` for the full model including the load
failure the clause does not catch. -/
inductive LoadErr where
  | osError
  | jsonDecodeError

/-- The caught-failure fragment of `TimeSeriesDatabase.__enter__`
(src/max17205.py:52-67): on `OSError` or `json.JSONDecodeError` — the
two exceptions the `except` clause catches — substitute the fresh empty
dict; on success take `json.load`'s value as `_data`. On these outcomes
`__enter__` completes without raising; `dbEnterFull` below extends this
to the uncaught failure path. -/
def dbEnter : Except LoadErr Json → Json
  | .error _ => emptyDbJson
  | .ok j => j

/-- Python errors raised out of `TimeSeriesDatabase` methods: attribute
access on the unassigned `_data`, the `assert` in the `data` property,
and the `UnicodeDecodeError` that `json.load` raises on a file whose
bytes are not valid text and that `__enter__`'s `except` clause does not
catch. -/
inductive PyErr where
  | attributeError
  | assertionError
  | unicodeDecodeError
  deriving DecidableEq, Repr

/-- The state of the `_data` attribute: `none` models the unassigned
attribute (the constructor at src/max17205.py:33-34 only annotates
`self._data`, it assigns nothing), `some j` the assigned value. -/
def DbAttr := Option Json

/-- The `data` property (src/max17205.py:36-39): reading `self._data`
on an unassigned attribute raises `AttributeError`; otherwise
`assert self._data is not None` raises `AssertionError` when the
assigned value is JSON null (`json.load` of a file containing `null`
returns `None`). -/
def dataProp : DbAttr → Except PyErr Json
  | none => .error .attributeError
  | some v => if v.isNull then .error .assertionError else .ok v

/-- The first operation of `append` (src/max17205.py:43) reads
`self._data`, which raises `AttributeError` when the attribute is
unassigned. -/
def appendAttrRead : DbAttr → Except PyErr Json
  | none => .error .attributeError
  | some v => .ok v

/-- The full outcome space of the `try` body of `__enter__`
(src/max17205.py:54-55), `_DB_FILE.open("rb")` followed by
`json.load(io)`:
* `parsed j` — the file was read, its bytes decoded as text, and the
  text parsed as the JSON value `j`;
* `osError` — opening or reading the file fails (missing, unreadable);
* `jsonDecodeError` — the decoded text is not valid JSON
  (`json.JSONDecodeError`);
* `unicodeDecodeError` — the bytes are not valid UTF-8/16/32 text, so
  `json.load`'s internal `bytes.decode` raises `UnicodeDecodeError`
  before any JSON parsing (a `ValueError` that is not a
  `JSONDecodeError`). -/
inductive LoadOutcome where
  | parsed (j : Json)
  | osError
  | jsonDecodeError
  | unicodeDecodeError

/-- Model of `TimeSeriesDatabase.__enter__` (src/max17205.py:52-67) over
the full failure space of its `try` body: the
`except (OSError, json.JSONDecodeError)` clause catches exactly those
two classes and substitutes the fresh empty dict; a `UnicodeDecodeError`
from a corrupt non-text file matches neither class and propagates out of
`__enter__`. -/
def dbEnterFull : LoadOutcome → Except PyErr Json
  | .parsed j => .ok j
  | .osError => .ok emptyDbJson
  | .jsonDecodeError => .ok emptyDbJson
  | .unicodeDecodeError => .error .unicodeDecodeError

/-- State of the cooperative scheduler's shared data for one sampler
cycle: the shared store plus the register values the sampler has decoded
so far in the current cycle. -/
structure ConcState where
  db : DbData
  pending : List ℚ

/-- Interleaving semantics of the two anyio tasks (src/max17205.py:79-82)
at `await`-point granularity: under anyio's cooperative scheduler a task
can only be suspended at an `await`, so each maximal await-free slice is
one atomic step.
* `read`: one `await _get_reg(...)` of `_append_vals` resumes with a
  decoded value (src/max17205.py:148-153); the store is untouched.
* `lastRead`: the seventh `await` resumes and the same slice runs
  `db.append(...)` to completion — lines 43-50 contain no `await`, so no
  reader can run between the eight list pushes.
* `render`: one iteration of the `_update_plot` body
  (src/max17205.py:92-134 up to its `await anyio.sleep`): it reads all
  8 sequences and mutates nothing in the store.
A failing cycle simply produces no further steps. -/
inductive AStep : ConcState → ConcState → Prop
  | read (s : ConcState) (v : ℚ) (h : s.pending.length < 6) :
      AStep s ⟨s.db, s.pending ++ [v]⟩
  | lastRead (s : ConcState) (now : String) (v1 v2 v3 v4 v5 v6 v7 : ℚ)
      (h : s.pending = [v1, v2, v3, v4, v5, v6]) :
      AStep s ⟨s.db.append now v1 v2 v3 v4 v5 v6 v7, []⟩
  | render (s : ConcState) : AStep s s

/-- All 8 sequences of the store have a common length. -/
def eqLenAll (db : DbData) : Prop := ∃ n, eqLen db n

/-- The inline state-of-charge conversion `x / 256` applied to the
VFSOC, FullSOCThr and RepSOC series (src/max17205.py:96-98). Python
floats are modelled as exact rationals; for the formula comparisons
below this is sound because the code and the spec write the identical
expression tree, which evaluates identically in floating point. -/
def plotPercent (x : ℚ) : ℚ := x / 256

/-- Model of `_to_amps` (src/max17205.py:136-138): note it uses its own local
`rsense = 10`, not the module-level `rSense`. -/
def _to_amps (curr : ℚ) : ℚ :=
  let rsense : ℚ := 10
  curr * 15625 / (rsense * 10) / 1000000

/-- The inline cell-voltage conversion `x * 625 / 8 / 1e6`
(src/max17205.py:111-112). -/
def plotCellVolts (x : ℚ) : ℚ := x * 625 / 8 / 1000000

/-- Spec formula (§4.1): `toPercent(raw) = raw / 256.0`. Stated from the
spec's words, to be compared with the code-side `plotPercent`. -/
def spec_toPercent (raw : ℚ) : ℚ := raw / 256

/-- Spec formula (§4.1):
`toAmps(raw, senseResistorMilliohm) = raw * 15625 / (senseResistorMilliohm * 10) / 1e6`. -/
def spec_toAmps (raw senseResistorMilliohm : ℚ) : ℚ :=
  raw * 15625 / (senseResistorMilliohm * 10) / 1000000

/-- Spec formula (§4.1): `toVolts(raw) = raw * 625 / 8 / 1e6`. -/
def spec_toVolts (raw : ℚ) : ℚ := raw * 625 / 8 / 1000000

-- Sanity checks on the parser model (Python semantics).
example : Nat.toDigits 16 255 = ['f', 'f'] := by decide
example : mkCmd 0xFF = "i2cget -f -y 0 0x36 0xff w" := by decide
example : mkCmd 0x06 = "i2cget -f -y 0 0x36 0x6 w" := by decide
example : pyIntHex "ffff".data = some 65535 := by decide
example : pyIntHex "0xff".data = some 255 := by decide
example : pyIntHex "0x_ff".data = some 255 := by decide
example : pyIntHex "f_f".data = some 255 := by decide
example : pyIntHex "-ff".data = some (-255) := by decide
example : pyIntHex "_ff".data = none := by decide
example : pyIntHex "ff_".data = none := by decide
example : pyIntHex "f__f".data = none := by decide
example : pyIntHex "0x".data = none := by decide
example : pyIntHex "".data = none := by decide
example : pyIntHex "xyz".data = none := by decide
example : pyIntHex "  ff  ".data = some 255 := by decide
example : decode "ffff" true = .ok (-1) := rfl
example : decode "ffff" false = .ok 65535 := rfl
example : decode "10000" false = .ok 65536 := rfl
example : decode "10000" true = .ok 0 := rfl

/-! ## Length invariant (C1, C2) -/

/-- One `append` pushes exactly one value onto each of the 8 sequences. -/
theorem append_eqLen (db : DbData) (n : Nat) (now : String)
    (v1 v2 v3 v4 v5 v6 v7 : ℚ) (h : eqLen db n) :
    eqLen (db.append now v1 v2 v3 v4 v5 v6 v7) (n + 1) := by
  obtain ⟨h1, h2, h3, h4, h5, h6, h7, h8⟩ := h
  simp [DbData.append, eqLen, h1, h2, h3, h4, h5, h6, h7, h8]

/-- Folding a list of samples over the store adds its length to every
sequence. -/
theorem appendAll_eqLen (samples : List Sample) (db : DbData) (n : Nat)
    (h : eqLen db n) :
    eqLen (appendAll db samples) (n + samples.length) := by
  induction samples generalizing db n with
  | nil => simpa [appendAll] using h
  | cons s rest ih =>
    have hstep : eqLen (appendSample db s) (n + 1) :=
      append_eqLen db n s.t s.VFSOC s.FullSOCThr s.AvgCurrent s.IChgTerm
        s.AvgCell1 s.AvgCell2 s.RepSOC h
    have h2 : eqLen (appendAll (appendSample db s) rest) (n + 1 + rest.length) :=
      ih (appendSample db s) (n + 1) hstep
    simpa [appendAll, Nat.add_assoc, Nat.add_comm, Nat.add_left_comm] using h2

/-- C1: every append pushes exactly one value onto each of the 8
sequences, so equal length of all sequences is an invariant preserved by
every append; after any sequence of N successful appends to an
initially-empty store, all 8 sequences have length exactly N. -/
theorem C1_append_lengths :
    (∀ (db : DbData) (n : Nat) (now : String) (v1 v2 v3 v4 v5 v6 v7 : ℚ),
      eqLen db n → eqLen (db.append now v1 v2 v3 v4 v5 v6 v7) (n + 1)) ∧
    (∀ samples : List Sample,
      eqLen (appendAll emptyDb samples) samples.length) := by
  constructor
  · exact fun db n now v1 v2 v3 v4 v5 v6 v7 h =>
      append_eqLen db n now v1 v2 v3 v4 v5 v6 v7 h
  · intro samples
    simpa using appendAll_eqLen samples emptyDb 0 (by decide)

/-- C1 witness: a concrete append to the empty store yields length 1
everywhere. -/
theorem C1_witness :
    eqLen (DbData.append emptyDb "2024-01-01T00:00:00" 1 2 3 4 5 6 7) 1 :=
  C1_append_lengths.1 emptyDb 0 "2024-01-01T00:00:00" 1 2 3 4 5 6 7 (by decide)

/-- C2: under the cooperative interleaving of the sampler and the
renderer at await granularity, every reachable state of the shared store
has all 8 sequences of equal length, so no full-sequence read (renderer
or shutdown save) ever observes a length mismatch. -/
theorem C2_reader_never_sees_mismatch :
    ∀ s0 s : ConcState, eqLenAll s0.db →
      Relation.ReflTransGen AStep s0 s → eqLenAll s.db := by
  intro s0 s h hsteps
  induction hsteps with
  | refl => exact h
  | tail hab hbc ih =>
    cases hbc with
    | read v hlen => exact ih
    | lastRead now v1 v2 v3 v4 v5 v6 v7 hp =>
      obtain ⟨n, hn⟩ := ih
      exact ⟨n + 1, append_eqLen _ n now v1 v2 v3 v4 v5 v6 v7 hn⟩
    | render => exact ih

/-- C2 witness: completing one cycle from the empty store by the final
read-and-append step leaves the lengths equal. -/
theorem C2_witness :
    eqLenAll (ConcState.mk (DbData.append emptyDb "x" 1 2 3 4 5 6 7) []).db :=
  C2_reader_never_sees_mismatch ⟨emptyDb, [1, 2, 3, 4, 5, 6]⟩
    ⟨DbData.append emptyDb "x" 1 2 3 4 5 6 7, []⟩
    ⟨0, by decide⟩
    (Relation.ReflTransGen.single
      (AStep.lastRead ⟨emptyDb, [1, 2, 3, 4, 5, 6]⟩ "x" 1 2 3 4 5 6 7 rfl))

/-! ## Register decoding (C3, C4) -/

/-- The function `c_int16` always lands in the signed 16-bit range. -/
theorem c_int16_range (v : Int) : -32768 ≤ c_int16 v ∧ c_int16 v ≤ 32767 := by
  have h0 : 0 ≤ v % 65536 := Int.emod_nonneg v (by decide)
  have h1 : v % 65536 < 65536 := Int.emod_lt_of_pos v (by decide)
  simp only [c_int16]
  split <;> omega

/-- C3: for every valid 16-bit hexadecimal string (one parsing to a
value `v` with `0 ≤ v < 65536`), the unsigned decode returns `v` itself
in `[0, 65535]` and the signed decode returns the two's-complement
reinterpretation in `[-32768, 32767]`; in particular
`decode "ffff" true = -1` and `decode "ffff" false = 65535`. -/
theorem C3_decode_ranges (s : String) (v : Int)
    (hparse : pyIntHex (pyStrip s.data) = some v)
    (h0 : 0 ≤ v) (h16 : v < 65536) :
    (decode s false = .ok v ∧ 0 ≤ v ∧ v ≤ 65535 ∧
      ∃ w, decode s true = .ok w ∧ -32768 ≤ w ∧ w ≤ 32767) ∧
    (decode "ffff" true = .ok (-1) ∧ decode "ffff" false = .ok 65535) := by
  refine ⟨⟨?_, h0, by omega, c_int16 v, ?_, (c_int16_range v).1, (c_int16_range v).2⟩,
    rfl, rfl⟩
  · simp [decode, hparse]
  · simp [decode, hparse]

/-- C3 witness: the concrete string `"ffff"`. -/
theorem C3_witness :
    decode "ffff" false = .ok 65535 ∧ decode "ffff" true = .ok (-1) := by
  have h := C3_decode_ranges "ffff" 65535 (by decide) (by decide) (by decide)
  exact ⟨h.1.1, h.2.1⟩

/-- C4 counterexample: `"10000"` is valid hexadecimal whose content
exceeds 16 bits, yet decoding does not fail with `ParseError` — the
unsigned decode returns the out-of-range value 65536 and the signed
decode returns the truncated value 0. -/
theorem C4_counterexample :
    decode "10000" false = .ok 65536 ∧ decode "10000" true = .ok 0 ∧
    decode "10000" false ≠ .error Err.parseError := by
  refine ⟨rfl, rfl, ?_⟩
  rw [show decode "10000" false = Except.ok 65536 from rfl]
  simp

/-- C4 amended: the register decode fails with `ParseError` exactly when
the input string is not valid hexadecimal (per Python `int(·, 16)`); no
16-bit range check is performed, so whenever the string parses the
decode succeeds — unsigned reads return the full parsed value (possibly
out of `[0, 65535]`) and signed reads truncate to the low 16 bits. -/
theorem C4_amended_fail_iff :
    ∀ (s : String) (signed : Bool),
      ((∃ e, decode s signed = .error e) ↔ pyIntHex (pyStrip s.data) = none) ∧
      (∀ v, pyIntHex (pyStrip s.data) = some v →
        decode s signed = .ok (if signed then c_int16 v else v)) := by
  intro s signed
  refine ⟨⟨?_, ?_⟩, ?_⟩
  · rintro ⟨e, he⟩
    unfold decode at he
    cases hp : pyIntHex (pyStrip s.data) with
    | none => rfl
    | some v => rw [hp] at he; exact Except.noConfusion he
  · intro hp
    exact ⟨.parseError, by simp [decode, hp]⟩
  · intro v hp
    simp [decode, hp]

/-- C4 witness for the amended claim: `"ff"` parses, so decoding
succeeds with the parsed value. -/
theorem C4_witness :
    decode "ff" false = Except.ok (if false then c_int16 255 else 255) :=
  (C4_amended_fail_iff "ff" false).2 255 (by decide)

/-! ## Unit conversions (C5) -/

/-- C5: the unit conversions in the code are exactly the register map's
scaling formulas of the spec — the state-of-charge series use
`raw / 256`, the cell-voltage series use `raw * 625 / 8 / 1e6`, and
`_to_amps` equals `toAmps` at the deployed 10 mΩ sense resistor — with
the spec's concrete test values. -/
theorem C5_unit_conversions :
    (∀ x : ℚ, plotPercent x = spec_toPercent x) ∧
    (∀ x : ℚ, plotCellVolts x = spec_toVolts x) ∧
    (∀ x : ℚ, _to_amps x = spec_toAmps x 10) ∧
    spec_toPercent 25600 = 100 ∧
    spec_toVolts 40000 = 40000 * 625 / 8 / 1000000 ∧
    spec_toAmps 1000 10 = 1000 * 15625 / 100 / 1000000 := by
  refine ⟨fun x => rfl, fun x => rfl, fun x => rfl,
    by norm_num [spec_toPercent], rfl, by norm_num [spec_toAmps]⟩

/-! ## The sampling cycle (C6, C9) -/

/-- C6: a sampling cycle issues exactly the 7 register reads of the
fixed address table with the stated signedness, in the fixed order
VFSOC(0xFF/u), FullSOCThr(0x13/u), AvgCurrent(0x0B/s), IChgTerm(0x1E/s),
AvgCell1(0xD4/u), AvgCell2(0xD3/u), RepSOC(0x06/u), and assigns each
decoded value to the correspondingly-named field of the appended
sample. -/
theorem C6_read_table (conn : Conn) (db : DbData) (now : String)
    (v1 v2 v3 v4 v5 v6 v7 : Int)
    (h1 : _get_reg conn 0xFF false = .ok v1)
    (h2 : _get_reg conn 0x13 false = .ok v2)
    (h3 : _get_reg conn 0x0B true = .ok v3)
    (h4 : _get_reg conn 0x1E true = .ok v4)
    (h5 : _get_reg conn 0xD4 false = .ok v5)
    (h6 : _get_reg conn 0xD3 false = .ok v6)
    (h7 : _get_reg conn 0x06 false = .ok v7) :
    _append_vals conn now db =
      .ok (db.append now (v1 : ℚ) (v2 : ℚ) (v3 : ℚ) (v4 : ℚ) (v5 : ℚ)
             (v6 : ℚ) (v7 : ℚ),
           [⟨0xFF, false⟩, ⟨0x13, false⟩, ⟨0x0B, true⟩, ⟨0x1E, true⟩,
            ⟨0xD4, false⟩, ⟨0xD3, false⟩, ⟨0x06, false⟩]) := by
  simp [_append_vals, readStep, h1, h2, h3, h4, h5, h6, h7]

/-- A connection on which every read succeeds with stdout `0x1a2b`. -/
def connOk : Conn := fun _ => ⟨0, "0x1a2b"⟩

/-- C6 witness: on a concrete all-success connection the cycle produces
exactly the 7-read log and the appended sample. -/
theorem C6_witness :
    _append_vals connOk "x" emptyDb =
      .ok (DbData.append emptyDb "x" 6699 6699 6699 6699 6699 6699 6699,
           [⟨0xFF, false⟩, ⟨0x13, false⟩, ⟨0x0B, true⟩, ⟨0x1E, true⟩,
            ⟨0xD4, false⟩, ⟨0xD3, false⟩, ⟨0x06, false⟩]) :=
  C6_read_table connOk emptyDb "x" 6699 6699 6699 6699 6699 6699 6699
    rfl rfl rfl rfl rfl rfl rfl

/-- If a cycle returns a new store, all seven reads succeeded: the
contrapositive of "any failing read aborts the cycle before append". -/
theorem append_vals_ok_all (conn : Conn) (now : String) (db : DbData)
    (p : DbData × List RegRead) (h : _append_vals conn now db = .ok p) :
    (∃ v, _get_reg conn 0xFF false = .ok v) ∧
    (∃ v, _get_reg conn 0x13 false = .ok v) ∧
    (∃ v, _get_reg conn 0x0B true = .ok v) ∧
    (∃ v, _get_reg conn 0x1E true = .ok v) ∧
    (∃ v, _get_reg conn 0xD4 false = .ok v) ∧
    (∃ v, _get_reg conn 0xD3 false = .ok v) ∧
    (∃ v, _get_reg conn 0x06 false = .ok v) := by
  unfold _append_vals readStep at h
  rcases e1 : _get_reg conn 0xFF false with f1 | w1 <;> rw [e1] at h
  · exact absurd h (by simp)
  rcases e2 : _get_reg conn 0x13 false with f2 | w2 <;> rw [e2] at h
  · exact absurd h (by simp)
  rcases e3 : _get_reg conn 0x0B true with f3 | w3 <;> rw [e3] at h
  · exact absurd h (by simp)
  rcases e4 : _get_reg conn 0x1E true with f4 | w4 <;> rw [e4] at h
  · exact absurd h (by simp)
  rcases e5 : _get_reg conn 0xD4 false with f5 | w5 <;> rw [e5] at h
  · exact absurd h (by simp)
  rcases e6 : _get_reg conn 0xD3 false with f6 | w6 <;> rw [e6] at h
  · exact absurd h (by simp)
  rcases e7 : _get_reg conn 0x06 false with f7 | w7 <;> rw [e7] at h
  · exact absurd h (by simp)
  exact ⟨⟨w1, rfl⟩, ⟨w2, rfl⟩, ⟨w3, rfl⟩, ⟨w4, rfl⟩, ⟨w5, rfl⟩, ⟨w6, rfl⟩,
    ⟨w7, rfl⟩⟩

/-- C9: a read whose command exits non-zero fails as `CommandError`; if
any of the 7 reads of a cycle fails, the cycle appends nothing (it
returns an error, never a store); and a failing cycle stops the sampling
loop with the store exactly as it was before that cycle, surfacing the
error. -/
theorem C9_failure_stops_sampling :
    (∀ (conn : Conn) (reg_address : Nat) (signed : Bool),
       (conn (mkCmd reg_address)).exitStatus ≠ 0 →
       _get_reg conn reg_address signed = .error .commandError) ∧
    (∀ (conn : Conn) (now : String) (db : DbData),
       ((∃ e, _get_reg conn 0xFF false = .error e) ∨
        (∃ e, _get_reg conn 0x13 false = .error e) ∨
        (∃ e, _get_reg conn 0x0B true = .error e) ∨
        (∃ e, _get_reg conn 0x1E true = .error e) ∨
        (∃ e, _get_reg conn 0xD4 false = .error e) ∨
        (∃ e, _get_reg conn 0xD3 false = .error e) ∨
        (∃ e, _get_reg conn 0x06 false = .error e)) →
       ∃ e, _append_vals conn now db = .error e) ∧
    (∀ (conn : Conn) (now : String) (rest : List String) (db : DbData)
       (e : Err),
       _append_vals conn now db = .error e →
       _stream_vals conn (now :: rest) db = (db, some e)) := by
  refine ⟨?_, ?_, ?_⟩
  · intro conn reg_address signed h
    simp [_get_reg, runCheck, h]
  · intro conn now db hfail
    cases hres : _append_vals conn now db with
    | error e => exact ⟨e, rfl⟩
    | ok p =>
      exfalso
      obtain ⟨⟨w1, g1⟩, ⟨w2, g2⟩, ⟨w3, g3⟩, ⟨w4, g4⟩, ⟨w5, g5⟩, ⟨w6, g6⟩,
        ⟨w7, g7⟩⟩ := append_vals_ok_all conn now db p hres
      rcases hfail with ⟨e, he⟩ | ⟨e, he⟩ | ⟨e, he⟩ | ⟨e, he⟩ | ⟨e, he⟩ |
        ⟨e, he⟩ | ⟨e, he⟩
      · rw [g1] at he; exact Except.noConfusion he
      · rw [g2] at he; exact Except.noConfusion he
      · rw [g3] at he; exact Except.noConfusion he
      · rw [g4] at he; exact Except.noConfusion he
      · rw [g5] at he; exact Except.noConfusion he
      · rw [g6] at he; exact Except.noConfusion he
      · rw [g7] at he; exact Except.noConfusion he
  · intro conn now rest db e h
    simp [_stream_vals, h]

/-- A connection on which every command exits with status 1. -/
def connFail : Conn := fun _ => ⟨1, ""⟩

/-- C9 witness: on a connection whose commands exit non-zero, the read
fails as `CommandError`, the cycle appends nothing, and the loop stops
with the store untouched. -/
theorem C9_witness :
    _get_reg connFail 0xFF false = .error .commandError ∧
    (∃ e, _append_vals connFail "x" emptyDb = .error e) ∧
    _stream_vals connFail ["x", "y"] emptyDb = (emptyDb, some .commandError) :=
  ⟨C9_failure_stops_sampling.1 connFail 0xFF false (by decide),
   C9_failure_stops_sampling.2.1 connFail "x" emptyDb
     (Or.inl ⟨.commandError, rfl⟩),
   C9_failure_stops_sampling.2.2 connFail "x" ["y"] emptyDb .commandError rfl⟩

/-! ## Persistence (C7, C8) and the `_data` attribute (C10) -/

/-- Reading back a column of JSON strings recovers the original list. -/
theorem jsonStrs_map (l : List String) :
    jsonStrs (l.map Json.str) = some l := by
  induction l with
  | nil => rfl
  | cons x xs ih => simp [jsonStrs, ih]

/-- Reading back a column of JSON numbers recovers the original list. -/
theorem jsonNums_map (l : List ℚ) :
    jsonNums (l.map Json.num) = some l := by
  induction l with
  | nil => rfl
  | cons x xs ih => simp [jsonNums, ih]

/-- C7: saving the store to the persisted file and loading it back
reproduces equal content in all 8 sequences — numeric columns equal as
rationals, the timestamp column equal as strings. The stdlib JSON codec
is external and faithful on this value shape, so the file round trip is
the identity on the dumped JSON value; reading the 8 keys of the loaded
value as the program does yields the original store exactly. -/
theorem C7_save_load_roundtrip :
    ∀ db : DbData, jsonToDb (dbEnter (.ok (dbToJson db))) = some db := by
  intro db
  have h1 : jLookup (dbToJson db) "t" = some (.arr (db.t.map .str)) := rfl
  have h2 : jLookup (dbToJson db) "VFSOC" =
    some (.arr (db.VFSOC.map .num)) := rfl
  have h3 : jLookup (dbToJson db) "FullSOCThr" =
    some (.arr (db.FullSOCThr.map .num)) := rfl
  have h4 : jLookup (dbToJson db) "AvgCurrent" =
    some (.arr (db.AvgCurrent.map .num)) := rfl
  have h5 : jLookup (dbToJson db) "IChgTerm" =
    some (.arr (db.IChgTerm.map .num)) := rfl
  have h6 : jLookup (dbToJson db) "AvgCell1" =
    some (.arr (db.AvgCell1.map .num)) := rfl
  have h7 : jLookup (dbToJson db) "AvgCell2" =
    some (.arr (db.AvgCell2.map .num)) := rfl
  have h8 : jLookup (dbToJson db) "RepSOC" =
    some (.arr (db.RepSOC.map .num)) := rfl
  simp [dbEnter, jsonToDb, getStrSeq, getNumSeq, h1, h2, h3, h4, h5, h6, h7,
    h8, jArr, jsonStrs_map, jsonNums_map]

/-- The caught-fragment view `dbEnter` agrees with the full model
`dbEnterFull` on every outcome it covers. -/
theorem dbEnter_agrees_dbEnterFull :
    (∀ j : Json, dbEnterFull (.parsed j) = .ok (dbEnter (.ok j))) ∧
    dbEnterFull .osError = .ok (dbEnter (.error .osError)) ∧
    dbEnterFull .jsonDecodeError = .ok (dbEnter (.error .jsonDecodeError)) :=
  ⟨fun _ => rfl, rfl, rfl⟩

/-- C8 counterexample: a corrupted persisted file whose bytes are not
valid text (e.g. a single `0x80` byte) makes `json.load` raise
`UnicodeDecodeError`, which `except (OSError, json.JSONDecodeError)`
does not catch — `__enter__` raises instead of yielding an empty store,
refuting "opening the store when the persisted file is missing or
corrupted ... does not raise". -/
theorem C8_counterexample :
    dbEnterFull LoadOutcome.unicodeDecodeError =
      Except.error PyErr.unicodeDecodeError ∧
    dbEnterFull LoadOutcome.unicodeDecodeError ≠ Except.ok emptyDbJson := by
  refine ⟨rfl, ?_⟩
  rw [show dbEnterFull LoadOutcome.unicodeDecodeError =
    Except.error PyErr.unicodeDecodeError from rfl]
  simp

/-- C8 amended: when the persisted file is missing/unreadable
(`OSError`) or its text is not valid JSON (`json.JSONDecodeError`) —
the two failures the `except` clause catches — `__enter__` yields the
empty store with all 8 sequences present and of length 0 and does not
raise; but a corrupted file whose bytes are not valid text raises an
uncaught `UnicodeDecodeError` out of `__enter__`; when the file is
readable and parseable, its contents become the store's data
unchanged. -/
theorem C8_amended_load :
    (dbEnterFull .osError = .ok emptyDbJson ∧
     dbEnterFull .jsonDecodeError = .ok emptyDbJson ∧
     jsonToDb emptyDbJson = some emptyDb ∧ eqLen emptyDb 0) ∧
    dbEnterFull .unicodeDecodeError = .error .unicodeDecodeError ∧
    (∀ j : Json, dbEnterFull (.parsed j) = .ok j) :=
  ⟨⟨rfl, rfl, rfl, by decide⟩, rfl, fun j => rfl⟩

/-- C10 counterexample: a persisted file containing the JSON literal
`null` loads successfully (`json.load` returns `None`), `__enter__`
assigns it to `_data`, and the `assert self._data is not None` in the
`data` property then fails on this opened store — refuting "after
`__enter__` has run `_data` is always a non-None dict". -/
theorem C10_counterexample :
    dataProp (some (dbEnter (Except.ok Json.null))) =
      Except.error PyErr.assertionError := rfl

/-- C10 amended: before `__enter__` has run, the `_data` attribute is
unassigned (the constructor only annotates it), so both the `data`
property and `append` raise `AttributeError`; after `__enter__` the
attribute is always assigned, and the assert in `data` fails exactly
when the loaded file parsed to JSON `null` — in particular after a
failed load (missing/corrupt file) the fresh dict is returned and the
assert passes. -/
theorem C10_amended_attribute :
    dataProp none = .error .attributeError ∧
    appendAttrRead none = .error .attributeError ∧
    (∀ out : Except LoadErr Json,
       dataProp (some (dbEnter out)) = .error .assertionError ↔
         (dbEnter out).isNull = true) ∧
    (∀ e : LoadErr, dataProp (some (dbEnter (.error e))) = .ok emptyDbJson) := by
  refine ⟨rfl, rfl, ?_, fun e => rfl⟩
  intro out
  constructor
  · intro h
    cases hn : (dbEnter out).isNull with
    | false => simp [dataProp, hn] at h
    | true => rfl
  · intro hn
    simp [dataProp, hn]
